import Mathlib

/-!
Shallow embedding of the trade-finance document lifecycle core:
the role-gated action tables and lookup (`src/unnamed/part_006`),
the ledger-driven status derivation and rendering of the
`LedgerExplorer` page (`src/frontend/src/pages/Signup.tsx`, second unit),
the per-role action menu of `DocumentView`
(`src/frontend/DocumentView.jsx`), and the integrity checker contract
(backend worker, modelled from the spec where its source is absent).
-/

namespace TradeFinance

/-- Association-list lookup mirroring a JavaScript object property access
restricted to own properties: `obj[key]` yields the stored value when the
key is an own key and `none` otherwise.  Real JS additionally resolves the
property names inherited from Object.prototype (constructor, toString, ...)
to inherited members; that behaviour is modelled separately below by
`getAllowedActionsJS`, and the theorems stated with `lookupKV` quantify
only over the table's own vocabulary of types, statuses and roles, where
the two semantics agree. -/
def lookupKV {α : Type} (m : List (String × α)) (k : String) : Option α :=
  (m.find? (fun p => p.1 == k)).map (fun p => p.2)

/-- The role/action table packaged with `getAllowedActions`
(`src/unnamed/part_006`, lines 39-82, the `const ACTION_RULES` in the same
file as the function).  Nesting: document type → last action (used as the
current status) → role → allowed actions. -/
def ACTION_RULES : List (String × List (String × List (String × List String))) :=
  [ ("INVOICE",
      [ ("ISSUED", [("bank", ["PAID"]), ("admin", ["PAID"])]),
        ("PAID", []) ]),
    ("BOL",
      [ ("ISSUED", [("coperate", ["SHIPPED"]), ("admin", ["SHIPPED"])]),
        ("SHIPPED", [("coperate", ["RECEIVED"]), ("admin", ["RECEIVED"])]),
        ("RECEIVED", [("auditor", ["VERIFY"]), ("admin", ["VERIFY"])]),
        ("VERIFY", []) ]),
    ("PO",
      [ ("ISSUED", [("auditor", ["VERIFY"]), ("admin", ["VERIFY"])]),
        ("VERIFY", []) ]),
    ("LOC",
      [ ("ISSUED", [("auditor", ["VERIFY"]), ("admin", ["VERIFY"])]),
        ("VERIFY", []) ]) ]

/-- The alternate `export const ACTION_RULES` table
(`src/unnamed/part_006`, lines 1-35, a separate module of the repository).
It differs from the table above: PO/ISSUED grants bank `ISSUE_LOC`, and
BOL/ISSUED names the role `seller` instead of `coperate`. -/
def ACTION_RULES_exported : List (String × List (String × List (String × List String))) :=
  [ ("PO",
      [ ("ISSUED", [("auditor", ["VERIFY"]), ("bank", ["ISSUE_LOC"])]),
        ("VERIFY", []) ]),
    ("LOC",
      [ ("ISSUED", [("auditor", ["VERIFY"])]),
        ("VERIFY", []) ]),
    ("BOL",
      [ ("ISSUED", [("seller", ["SHIPPED"])]),
        ("SHIPPED", [("coperate", ["RECEIVED"])]),
        ("RECEIVED", []) ]),
    ("INVOICE",
      [ ("ISSUED", [("bank", ["PAID"])]) ]) ]

/-- `getAllowedActions(docType, lastAction, role)` from
`src/unnamed/part_006` lines 84-94:
`ACTION_RULES[docType]?.[lastAction]?.[role] || []`.
Every failed lookup in the optional chain collapses to the empty list. -/
def getAllowedActions (docType lastAction role : String) : List String :=
  match lookupKV ACTION_RULES docType with
  | none => []
  | some byStatus =>
    match lookupKV byStatus lastAction with
    | none => []
    | some byRole =>
      match lookupKV byRole role with
      | none => []
      | some acts => acts

/-- The same optional-chain lookup applied to the alternate exported table
(consumers of `export const ACTION_RULES` index it the same way). -/
def exportedAllowedActions (docType lastAction role : String) : List String :=
  match lookupKV ACTION_RULES_exported docType with
  | none => []
  | some byStatus =>
    match lookupKV byStatus lastAction with
    | none => []
    | some byRole =>
      match lookupKV byRole role with
      | none => []
      | some acts => acts

/-- `LedgerExplorer` (`src/frontend/src/pages/Signup.tsx`, second unit,
lines 94-95): the current status used for the permissions lookup is the
action of the last ledger entry, `"ISSUED"` when the ledger is empty.
A ledger is modelled by its ordered list of entry actions. -/
def lastActionOf (ledger : List String) : String :=
  if ledger.length > 0 then ledger.getLastD "ISSUED" else "ISSUED"

/-- The transition step of the program: `ACTION_RULES` is keyed by the last
ledger action, so recording an action makes that action name the document's
next status.  The target status of a transition is the action itself. -/
def stepStatus (_status action : String) : String := action

/-- Replaying an ordered ledger action sequence through the transition
table, starting from a given initial status. -/
def replayStatus (init : String) (actions : List String) : String :=
  actions.foldl stepStatus init

/-- `LedgerExplorer` lines 97-100: the allowed actions offered to the user,
computed from the document type, the ledger-derived status and the role. -/
def ledgerAllowedActions (docType : String) (ledger : List String) (role : String) : List String :=
  getAllowedActions docType (lastActionOf ledger) role

/-- `LedgerExplorer` lines 138-140: the page renders the fallback text
`No actions available` exactly when the allowed-actions list is empty;
no error path exists for an empty list. -/
def showsNoActionsMessage (allowed : List String) : Bool :=
  allowed.length == 0

/-- The document record as `DocumentView` (`src/frontend/DocumentView.jsx`)
reads it: its type, plus the per-document state the component also holds
(current status and ledger history) which `getAvailableActions` ignores. -/
structure FrontDocument where
  doc_type : String
  status : String
  ledger_entries : List String

/-- JavaScript `[...new Set(list)]`: deduplicate keeping first occurrences. -/
def jsSetDedup (seen : List String) : List String → List String
  | [] => []
  | a :: rest =>
    if seen.contains a then jsSetDedup seen rest
    else a :: jsSetDedup (a :: seen) rest

/-- `getAvailableActions` from `src/frontend/DocumentView.jsx` lines 74-111:
a cascade of role/doc-type checks pushing action names, deduplicated at the
end; returns `[]` when no document is loaded. -/
def getAvailableActions (userRole : String) (document : Option FrontDocument) : List String :=
  match document with
  | none => []
  | some doc =>
    let actions : List String := []
    let actions := if userRole == "corporate" && doc.doc_type == "BOL"
      then actions ++ ["RECEIVED"] else actions
    let actions := if userRole == "corporate" && doc.doc_type == "PO"
      then actions ++ ["AMENDED"] else actions
    let actions := if userRole == "auditor" && (doc.doc_type == "PO" || doc.doc_type == "LOC")
      then actions ++ ["VERIFIED"] else actions
    let actions := if userRole == "bank" && doc.doc_type == "INVOICE"
      then actions ++ ["PAID"] else actions
    let actions := if userRole == "bank" && doc.doc_type == "PO"
      then actions ++ ["ISSUE_LOC"] else actions
    let actions := if userRole == "corporate" && doc.doc_type == "PO"
      then actions ++ ["ISSUE_BOL"] else actions
    let actions := if userRole == "corporate" && doc.doc_type == "BOL"
      then actions ++ ["SHIPPED", "ISSUE_INVOICE"] else actions
    jsSetDedup [] actions

/-- The data-property names every JavaScript object literal inherits from
Object.prototype: indexing any object literal with one of these yields the
inherited member — a function object, truthy and not undefined — even when
the literal declares no own properties at all. -/
def objectPrototypeKeys : List String :=
  ["constructor", "hasOwnProperty", "isPrototypeOf", "propertyIsEnumerable",
   "toLocaleString", "toString", "valueOf"]

/-- What the JS optional chain of getAllowedActions can hand back to its
caller: an array of strings (possibly the empty array supplied by the
trailing or-else), or a member inherited from Object.prototype — a truthy
function object that the or-else passes through unchanged. -/
inductive JSChainResult where
  | strings (acts : List String)
  | protoMember (name : String)
deriving DecidableEq

/-- The chain `ACTION_RULES[docType]?.[lastAction]?.[role] || []` with
JavaScript prototype-chain inheritance taken into account.  An own key
yields its stored value; an absent key that is not an Object.prototype name
yields undefined, short-circuiting the chain to the empty array; an
Object.prototype name hit at the role level yields the inherited member,
which is truthy and is returned as is.  When the docType or lastAction key
itself hits an Object.prototype name the chain continues on properties of
a built-in function object, which this model does not cover: it returns
`none` there, and every theorem below stays inside the covered region. -/
def getAllowedActionsJS (docType lastAction role : String) : Option JSChainResult :=
  match lookupKV ACTION_RULES docType with
  | none =>
    if objectPrototypeKeys.contains docType then none
    else some (.strings [])
  | some byStatus =>
    match lookupKV byStatus lastAction with
    | none =>
      if objectPrototypeKeys.contains lastAction then none
      else some (.strings [])
    | some byRole =>
      match lookupKV byRole role with
      | none =>
        if objectPrototypeKeys.contains role then some (.protoMember role)
        else some (.strings [])
      | some acts => some (.strings acts)

/-- What the storage backend reports for a content location:
the stored bytes, or not found. -/
inductive StorageRead where
  | bytes (content : List Nat)
  | notFound
deriving DecidableEq

/-- Outcome of one integrity check. -/
inductive IntegrityOutcome where
  | OK
  | HASH_MISMATCH
  | FILE_MISSING
deriving DecidableEq

/-- Result record produced by one integrity check. -/
structure IntegrityCheckResult where
  outcome : IntegrityOutcome
  recordedDigest : String
  recomputedDigest : Option String
deriving DecidableEq

/-- Modelled from the spec: the integrity worker
(`app/workers/integrity_worker.py`) is not among the source files; only its
launcher scripts and design notes are.  Per the spec, `checkOne` reads the
stored content, returns FILE_MISSING when storage reports not found (never
an exception), HASH_MISMATCH when the recomputed digest differs from the
recorded one, and OK otherwise.  The digest function is a parameter. -/
def checkOne (digest : List Nat → String) (recordedDigest : String)
    (stored : StorageRead) : IntegrityCheckResult :=
  match stored with
  | .notFound =>
    { outcome := .FILE_MISSING
      recordedDigest := recordedDigest
      recomputedDigest := none }
  | .bytes content =>
    let d := digest content
    if d == recordedDigest then
      { outcome := .OK, recordedDigest := recordedDigest, recomputedDigest := some d }
    else
      { outcome := .HASH_MISMATCH, recordedDigest := recordedDigest, recomputedDigest := some d }

/-- Folding the transition step over an action list lands on the last
action, or the initial status when the list is empty. -/
theorem replayStatus_eq_getLastD (actions : List String) :
    ∀ init : String, replayStatus init actions = actions.getLastD init := by
  induction actions with
  | nil => intro init; rfl
  | cons a rest ih =>
    intro init
    have hstep : replayStatus init (a :: rest) = replayStatus a rest := rfl
    rw [hstep, List.getLastD_cons]
    exact ih a

/-- Claim C1: replaying a document's ordered ledger action sequence through
the transition table, starting from the initial status ISSUED (also the
status used when the ledger is empty), reproduces exactly the status
LedgerExplorer uses to decide allowed actions, and the allowed-actions
lookup keyed by that replayed status is the one the page performs. -/
theorem C1_replay_invariant (ledger : List String) :
    replayStatus "ISSUED" ledger = lastActionOf ledger ∧
    ∀ docType role : String,
      ledgerAllowedActions docType ledger role =
        getAllowedActions docType (replayStatus "ISSUED" ledger) role := by
  have hmain : replayStatus "ISSUED" ledger = lastActionOf ledger := by
    cases ledger with
    | nil => rfl
    | cons a rest =>
      rw [replayStatus_eq_getLastD]
      simp [lastActionOf]
  refine ⟨hmain, ?_⟩
  intro docType role
  rw [ledgerAllowedActions, hmain]

/-- Claim C2: the allowed-actions lookup returns the empty list, for every
role, at every terminal status named by the spec (VERIFIED for PO, LOC and
BOL; PAID for INVOICE; RECEIVED for the types with no further action
there), and likewise at the table's own spelling VERIFY of the verified
terminal status. -/
theorem C2_terminal_status_empty (role : String) :
    (getAllowedActions "PO" "VERIFIED" role = [] ∧
     getAllowedActions "LOC" "VERIFIED" role = [] ∧
     getAllowedActions "BOL" "VERIFIED" role = []) ∧
    getAllowedActions "INVOICE" "PAID" role = [] ∧
    (getAllowedActions "PO" "RECEIVED" role = [] ∧
     getAllowedActions "LOC" "RECEIVED" role = [] ∧
     getAllowedActions "INVOICE" "RECEIVED" role = []) ∧
    (getAllowedActions "PO" "VERIFY" role = [] ∧
     getAllowedActions "LOC" "VERIFY" role = [] ∧
     getAllowedActions "BOL" "VERIFY" role = []) :=
  ⟨⟨rfl, rfl, rfl⟩, rfl, ⟨rfl, rfl, rfl⟩, ⟨rfl, rfl, rfl⟩⟩

/-- Claim C3 is false as stated: in the table that getAllowedActions
consults, role bank has no allowed action at PO/ISSUED, so ISSUE_LOC is not
in its allowed action set. -/
theorem C3_counterexample :
    getAllowedActions "PO" "ISSUED" "bank" = [] ∧
    "ISSUE_LOC" ∉ getAllowedActions "PO" "ISSUED" "bank" := by
  exact ⟨rfl, by decide⟩

/-- Claim C3 amended: the bank ISSUE_LOC rule at PO/ISSUED exists in the
alternate exported ACTION_RULES table and in DocumentView's action menu,
but the lookup used by LedgerExplorer, getAllowedActions, offers bank
nothing at PO/ISSUED. -/
theorem C3_amended :
    exportedAllowedActions "PO" "ISSUED" "bank" = ["ISSUE_LOC"] ∧
    "ISSUE_LOC" ∈ getAvailableActions "bank" (some ⟨"PO", "ISSUED", []⟩) ∧
    getAllowedActions "PO" "ISSUED" "bank" = [] := by
  exact ⟨rfl, by decide, rfl⟩

/-- Claim C4 is false as stated: in the table that getAllowedActions
consults, role seller has no allowed action at BOL/ISSUED, and even the
alternate exported table which does list seller names the action SHIPPED,
not SHIP. -/
theorem C4_counterexample :
    getAllowedActions "BOL" "ISSUED" "seller" = [] ∧
    "SHIP" ∉ exportedAllowedActions "BOL" "ISSUED" "seller" := by
  exact ⟨rfl, by decide⟩

/-- Claim C4 amended: at BOL/ISSUED the shipping action is named SHIPPED
and its resulting status is SHIPPED (the action name doubles as the target
status).  In the table getAllowedActions consults the acting role is
coperate, not seller; the seller spelling appears only in the alternate
exported table. -/
theorem C4_amended :
    getAllowedActions "BOL" "ISSUED" "coperate" = ["SHIPPED"] ∧
    stepStatus "ISSUED" "SHIPPED" = "SHIPPED" ∧
    exportedAllowedActions "BOL" "ISSUED" "seller" = ["SHIPPED"] ∧
    getAllowedActions "BOL" "ISSUED" "seller" = [] :=
  ⟨rfl, rfl, rfl, rfl⟩

/-- Claim C5: when the (docType, status) pair is present in the table but
the role has no entry there, the lookup returns the empty list (not an
error), and LedgerExplorer then renders the No-actions-available message
rather than a permission error. -/
theorem C5_absent_role_empty (docType status role : String)
    (byStatus : List (String × List (String × List String)))
    (byRole : List (String × List String))
    (hd : lookupKV ACTION_RULES docType = some byStatus)
    (hs : lookupKV byStatus status = some byRole)
    (hr : lookupKV byRole role = none) :
    getAllowedActions docType status role = [] ∧
    showsNoActionsMessage (getAllowedActions docType status role) = true := by
  have h : getAllowedActions docType status role = [] := by
    simp only [getAllowedActions, hd, hs, hr]
  exact ⟨h, by rw [h]; rfl⟩

/-- Witness for C5: PO/ISSUED is in the table and role bank has no entry
there; the lookup yields the empty list and the message is shown. -/
theorem C5_witness :
    getAllowedActions "PO" "ISSUED" "bank" = [] ∧
    showsNoActionsMessage (getAllowedActions "PO" "ISSUED" "bank") = true :=
  C5_absent_role_empty "PO" "ISSUED" "bank" _ _ rfl rfl rfl

/-- Claim C6 is false as stated: a (docType, status) combination absent
from the table is not caught by any startup validation; it surfaces as a
per-call result of the allowed-actions lookup, which returns the empty
list for an unknown status of a known type and for a type outside the
table alike. -/
theorem C6_counterexample :
    getAllowedActions "PO" "NOT_A_STATUS" "auditor" = [] ∧
    getAllowedActions "CERTIFICATE_OF_ORIGIN" "ISSUED" "auditor" = [] :=
  ⟨rfl, rfl⟩

/-- Claim C6 amended: the code has no startup validation of the transition
table; an unknown (docType, status) combination is handled at each call by
getAllowedActions, which silently returns the empty list,
indistinguishable from a terminal status. -/
theorem C6_amended (docType status role : String) :
    (lookupKV ACTION_RULES docType = none →
      getAllowedActions docType status role = []) ∧
    (∀ byStatus, lookupKV ACTION_RULES docType = some byStatus →
      lookupKV byStatus status = none →
      getAllowedActions docType status role = []) := by
  constructor
  · intro hd
    simp only [getAllowedActions, hd]
  · intro byStatus hd hs
    simp only [getAllowedActions, hd, hs]

/-- Witness for C6 amended: an unknown document type and an unknown status
of a known type both produce the empty list per call. -/
theorem C6_witness :
    getAllowedActions "CERTIFICATE_OF_ORIGIN" "ISSUED" "bank" = [] ∧
    getAllowedActions "LOC" "SHIPPED" "bank" = [] :=
  ⟨(C6_amended "CERTIFICATE_OF_ORIGIN" "ISSUED" "bank").1 rfl,
   (C6_amended "LOC" "SHIPPED" "bank").2 _ rfl rfl⟩

/-- Claim C7 (integrity worker modelled from the spec, its backend source
being absent): whenever storage reports the content location as not found,
checkOne returns a result whose outcome is FILE_MISSING; being a total
function it returns a result record and never throws. -/
theorem C7_missing_file (digest : List Nat → String) (recorded : String) :
    (checkOne digest recorded StorageRead.notFound).outcome =
      IntegrityOutcome.FILE_MISSING ∧
    (checkOne digest recorded StorageRead.notFound).recordedDigest = recorded :=
  ⟨rfl, rfl⟩

/-- On every triple whose keys avoid the inherited Object.prototype names,
the JS-faithful chain agrees with the plain own-key lookup and does return
a list, empty whenever any key is absent. -/
theorem getAllowedActionsJS_agrees (docType status role : String)
    (hd : objectPrototypeKeys.contains docType = false)
    (hs : objectPrototypeKeys.contains status = false)
    (hr : objectPrototypeKeys.contains role = false) :
    getAllowedActionsJS docType status role =
      some (JSChainResult.strings (getAllowedActions docType status role)) := by
  cases h1 : lookupKV ACTION_RULES docType with
  | none =>
    simp only [getAllowedActionsJS, getAllowedActions, h1]
    rw [hd]
    rfl
  | some byStatus =>
    cases h2 : lookupKV byStatus status with
    | none =>
      simp only [getAllowedActionsJS, getAllowedActions, h1, h2]
      rw [hs]
      rfl
    | some byRole =>
      cases h3 : lookupKV byRole role with
      | none =>
        simp only [getAllowedActionsJS, getAllowedActions, h1, h2, h3]
        rw [hr]
        rfl
      | some acts => simp only [getAllowedActionsJS, getAllowedActions, h1, h2, h3]

/-- Claim C8 fails on the code: JavaScript object literals inherit the
members of Object.prototype, so at INVOICE/PAID — whose role map is the
empty literal — the role key constructor resolves through the prototype
chain to the inherited Object constructor, a truthy function object that
the trailing or-else passes through; the call returns a non-list value,
refuting totality over all strings.  On a genuine role at the same
document type and status the chain agrees with the plain lookup and
returns the empty list. -/
theorem C8_proto_key_returns_nonlist :
    getAllowedActionsJS "INVOICE" "PAID" "constructor" =
      some (JSChainResult.protoMember "constructor") ∧
    getAllowedActionsJS "INVOICE" "PAID" "constructor" ≠
      some (JSChainResult.strings []) ∧
    getAllowedActionsJS "INVOICE" "PAID" "bank" =
      some (JSChainResult.strings (getAllowedActions "INVOICE" "PAID" "bank")) := by
  refine ⟨rfl, by decide, rfl⟩

/-- Claim C9: at every (docType, status) of the table where some role has a
non-empty action list, the admin role is allowed exactly the union of the
other roles' action lists there. -/
theorem C9_admin_union (a : String) :
    (a ∈ getAllowedActions "INVOICE" "ISSUED" "admin" ↔
      a ∈ getAllowedActions "INVOICE" "ISSUED" "bank" ∨
      a ∈ getAllowedActions "INVOICE" "ISSUED" "coperate" ∨
      a ∈ getAllowedActions "INVOICE" "ISSUED" "auditor") ∧
    (a ∈ getAllowedActions "BOL" "ISSUED" "admin" ↔
      a ∈ getAllowedActions "BOL" "ISSUED" "bank" ∨
      a ∈ getAllowedActions "BOL" "ISSUED" "coperate" ∨
      a ∈ getAllowedActions "BOL" "ISSUED" "auditor") ∧
    (a ∈ getAllowedActions "BOL" "SHIPPED" "admin" ↔
      a ∈ getAllowedActions "BOL" "SHIPPED" "bank" ∨
      a ∈ getAllowedActions "BOL" "SHIPPED" "coperate" ∨
      a ∈ getAllowedActions "BOL" "SHIPPED" "auditor") ∧
    (a ∈ getAllowedActions "BOL" "RECEIVED" "admin" ↔
      a ∈ getAllowedActions "BOL" "RECEIVED" "bank" ∨
      a ∈ getAllowedActions "BOL" "RECEIVED" "coperate" ∨
      a ∈ getAllowedActions "BOL" "RECEIVED" "auditor") ∧
    (a ∈ getAllowedActions "PO" "ISSUED" "admin" ↔
      a ∈ getAllowedActions "PO" "ISSUED" "bank" ∨
      a ∈ getAllowedActions "PO" "ISSUED" "coperate" ∨
      a ∈ getAllowedActions "PO" "ISSUED" "auditor") ∧
    (a ∈ getAllowedActions "LOC" "ISSUED" "admin" ↔
      a ∈ getAllowedActions "LOC" "ISSUED" "bank" ∨
      a ∈ getAllowedActions "LOC" "ISSUED" "coperate" ∨
      a ∈ getAllowedActions "LOC" "ISSUED" "auditor") := by
  have h1 : getAllowedActions "INVOICE" "ISSUED" "admin" = ["PAID"] := rfl
  have h2 : getAllowedActions "INVOICE" "ISSUED" "bank" = ["PAID"] := rfl
  have h3 : getAllowedActions "INVOICE" "ISSUED" "coperate" = [] := rfl
  have h4 : getAllowedActions "INVOICE" "ISSUED" "auditor" = [] := rfl
  have h5 : getAllowedActions "BOL" "ISSUED" "admin" = ["SHIPPED"] := rfl
  have h6 : getAllowedActions "BOL" "ISSUED" "bank" = [] := rfl
  have h7 : getAllowedActions "BOL" "ISSUED" "coperate" = ["SHIPPED"] := rfl
  have h8 : getAllowedActions "BOL" "ISSUED" "auditor" = [] := rfl
  have h9 : getAllowedActions "BOL" "SHIPPED" "admin" = ["RECEIVED"] := rfl
  have h10 : getAllowedActions "BOL" "SHIPPED" "bank" = [] := rfl
  have h11 : getAllowedActions "BOL" "SHIPPED" "coperate" = ["RECEIVED"] := rfl
  have h12 : getAllowedActions "BOL" "SHIPPED" "auditor" = [] := rfl
  have h13 : getAllowedActions "BOL" "RECEIVED" "admin" = ["VERIFY"] := rfl
  have h14 : getAllowedActions "BOL" "RECEIVED" "bank" = [] := rfl
  have h15 : getAllowedActions "BOL" "RECEIVED" "coperate" = [] := rfl
  have h16 : getAllowedActions "BOL" "RECEIVED" "auditor" = ["VERIFY"] := rfl
  have h17 : getAllowedActions "PO" "ISSUED" "admin" = ["VERIFY"] := rfl
  have h18 : getAllowedActions "PO" "ISSUED" "bank" = [] := rfl
  have h19 : getAllowedActions "PO" "ISSUED" "coperate" = [] := rfl
  have h20 : getAllowedActions "PO" "ISSUED" "auditor" = ["VERIFY"] := rfl
  have h21 : getAllowedActions "LOC" "ISSUED" "admin" = ["VERIFY"] := rfl
  have h22 : getAllowedActions "LOC" "ISSUED" "bank" = [] := rfl
  have h23 : getAllowedActions "LOC" "ISSUED" "coperate" = [] := rfl
  have h24 : getAllowedActions "LOC" "ISSUED" "auditor" = ["VERIFY"] := rfl
  rw [h1, h2, h3, h4, h5, h6, h7, h8, h9, h10, h11, h12, h13, h14, h15, h16,
    h17, h18, h19, h20, h21, h22, h23, h24]
  simp

/-- Claim C10: the action menu DocumentView offers depends only on the user
role and the document type — two loaded documents of the same type yield
identical menus whatever their status or ledger history. -/
theorem C10_menu_ignores_status (userRole : String) (d1 d2 : FrontDocument)
    (h : d1.doc_type = d2.doc_type) :
    getAvailableActions userRole (some d1) = getAvailableActions userRole (some d2) := by
  obtain ⟨t1, s1, l1⟩ := d1
  obtain ⟨t2, s2, l2⟩ := d2
  have ht : t1 = t2 := h
  subst ht
  rfl

/-- Witness for C10: two BOL documents with different statuses and ledgers
get the same menu. -/
theorem C10_witness :
    getAvailableActions "corporate" (some ⟨"BOL", "ISSUED", []⟩) =
      getAvailableActions "corporate"
        (some ⟨"BOL", "RECEIVED", ["SHIPPED", "RECEIVED"]⟩) :=
  C10_menu_ignores_status "corporate" _ _ rfl

end TradeFinance
